import Mathlib

/-!
Verification of the Roads CONNECT tunneling proxy (src/src/main.rs).

The development shallowly embeds the request-handling logic of the source:
the dispatcher closure in `main` (called `service` here), the CONNECT
handler `proxy`, the byte relay `tunnel`, the axum router (`routerSvc`:
routes `/ping` and `/`, with the `redirect` handler), the startup port
logic from `main`, and the database helpers `add_route` / `get_route`.

Library semantics the source relies on are embedded together with it and
documented at each definition: the axum `IntoResponse` instances for `()`,
for `&str` and for `(StatusCode, &str)`; the `FromStr` parser for `u16`;
the behaviour of `tokio::io::copy_bidirectional`; laziness of Rust
futures; and the guarantee of `hyper::upgrade::on` that the upgrade
future resolves only after the HTTP response has been written back to the
client.
-/

set_option autoImplicit false

namespace Roads

/-- HTTP method, as the dispatcher distinguishes it (`req.method() == Method::CONNECT`). -/
inductive Method where
  | CONNECT
  | GET
  | other (name : String)
deriving DecidableEq, Repr

/-- The parts of `http::Uri` the source reads: the path (used by the axum
router) and the optional authority (`req.uri().authority()`, used by `proxy`). -/
structure Uri where
  path : String
  authority : Option String
deriving DecidableEq, Repr

/-- An inbound `Request<Body>`: the source only inspects method and URI. -/
structure Request where
  method : Method
  uri : Uri
deriving DecidableEq, Repr

/-- An HTTP response: status code, headers, body bytes (as a string). -/
structure Response where
  status : Nat
  headers : List (String × String)
  body : String
deriving DecidableEq, Repr

/-- axum / http semantics: `Response::new(BoxBody::default())` is a `200 OK`
response with an empty body and no extra headers. -/
def emptySuccessResponse : Response :=
  { status := 200, headers := [], body := "" }

/-- axum semantics: `IntoResponse` for `&str` produces `200 OK` with a
plain-text content type and the string as body. -/
def intoResponseStr (s : String) : Response :=
  { status := 200
  , headers := [("content-type", "text/plain; charset=utf-8")]
  , body := s }

/-- axum semantics: `IntoResponse` for `(StatusCode, &str)` produces a
response with that status, a plain-text content type, and the string as body. -/
def intoResponseStatusStr (st : Nat) (s : String) : Response :=
  { status := st
  , headers := [("content-type", "text/plain; charset=utf-8")]
  , body := s }

/-- axum semantics: `IntoResponse` for `()` produces an empty `200 OK`
response with no headers. -/
def intoResponseUnit (_u : Unit) : Response :=
  { status := 200, headers := [], body := "" }

/-- The response value built (and then discarded) inside the `redirect`
handler: a `308 Permanent Redirect` with a `Location` header, paired with
the string literal of the second tuple component. -/
def redirectBuiltAndDiscarded : Response × String :=
  ({ status := 308
   , headers := [("Location", "https://bento.me/devjunio")]
   , body := "" }
  , "Redirecting to website...")

/-- The `redirect` handler from the source. Its body is the single statement
`(Response::builder()...  , ("Redirecting to website..."));` — note the
trailing semicolon: the tuple is built and immediately discarded, and the
function returns `()`. -/
def redirect : Unit :=
  let _discarded := redirectBuiltAndDiscarded
  ()

/-- The `/ping` handler body from the source: `|| async { "Pong" }`. -/
def pingHandler : String := "Pong"

/-- axum router fallback: a request whose path matches no registered route
receives an empty `404 Not Found` response. -/
def notFoundResponse : Response :=
  { status := 404, headers := [], body := "" }

/-- axum router: a registered path hit with an unregistered method receives
an empty `405 Method Not Allowed` response. -/
def methodNotAllowedResponse : Response :=
  { status := 405, headers := [], body := "" }

/-- The axum `router_svc` from `main`:
`Router::new().route("/ping", get(|| async { "Pong" })).route("/", get(redirect))`. -/
def routerSvc (req : Request) : Response :=
  match req.uri.path with
  | "/ping" =>
      if req.method = Method.GET then intoResponseStr pingHandler
      else methodNotAllowedResponse
  | "/" =>
      if req.method = Method.GET then intoResponseUnit redirect
      else methodNotAllowedResponse
  | _ => notFoundResponse

/-- The `router_svc.oneshot(req)` call: the error type of the axum router is
`Infallible` (embedded as `Empty`), so the router can only return `Ok`. -/
def routerOneshot (req : Request) : Except Empty Response :=
  Except.ok (routerSvc req)

/-- The CONNECT handler `proxy` from the source. It returns the
`http::Result<Response>` value together with the address captured by the
spawned background task (`none` when no task is spawned).

The source checks only that `req.uri().authority()` is present; when it is,
it spawns the upgrade/dial/tunnel task with the authority rendered to a
string and returns `Ok(Response::new(BoxBody::default()))` without awaiting
the task. When the authority is absent it logs a warning and returns the
`(StatusCode::BAD_REQUEST, "CONNECT must be to a socket address")` response. -/
def proxy (req : Request) : Except String Response × Option String :=
  match req.uri.authority with
  | some hostAddr => (Except.ok emptySuccessResponse, some hostAddr)
  | none =>
      (Except.ok (intoResponseStatusStr 400 "CONNECT must be to a socket address"),
       none)

/-- The dispatcher closure passed to `tower::service_fn` in `main`: CONNECT
requests go to `proxy`; every other request is forwarded unmodified to the
router, whose `Infallible` error is eliminated by `map_err(|err| match err {})`. -/
def service (req : Request) : Except String Response :=
  if req.method = Method.CONNECT then (proxy req).1
  else
    match routerOneshot req with
    | Except.ok resp => Except.ok resp
    | Except.error e => nomatch e

/-- Split a character list at every colon, like `String.splitOn ":"`. -/
def splitOnColon : List Char → List (List Char)
  | [] => [[]]
  | c :: rest =>
    let parts := splitOnColon rest
    if c = ':' then [] :: parts
    else
      match parts with
      | [] => [[c]]
      | p :: ps => (c :: p) :: ps

/-- Modelled from the spec: a well-formed `host:port` authority — a nonempty
host plus a nonempty numeric port. The source never performs this check; the
predicate is used only to state the claims of the spec about well-formed and
malformed authorities. -/
def wellFormedHostPort (s : String) : Bool :=
  match splitOnColon s.data with
  | [host, port] => !host.isEmpty && !port.isEmpty && port.all Char.isDigit
  | _ => false

/-- Outcome of `hyper::upgrade::on(req)` inside the spawned task. -/
inductive UpgradeOutcome where
  | ok
  | err (e : String)
deriving DecidableEq, Repr

/-- Outcome of `TcpStream::connect(addr)` inside `tunnel`. -/
inductive DialOutcome where
  | ok
  | err (e : String)
deriving DecidableEq, Repr

/-- Outcome of `tokio::io::copy_bidirectional(&mut upgraded, &mut server)`.
On success it yields the byte counts of both directions; on an I/O error in
either direction it yields only the `io::Error` — the counts accumulated so
far (`partialClient`, `partialServer`) are internal to the combinator and
are not part of the returned error value. -/
inductive RelayOutcome where
  | ok (fromClient fromServer : Nat)
  | err (e : String) (partialClient partialServer : Nat)
deriving DecidableEq, Repr

/-- Observable events of one CONNECT exchange, in execution order. -/
inductive Event where
  | sendResponse (status : Nat)
  | upgradeResolved (ok : Bool)
  | dialAttempt (addr : String)
  | relayRun
  | warnLog (msg : String)
  | debugCounts (fromClient fromServer : Nat)
deriving DecidableEq, Repr

instance {ε α : Type} [DecidableEq ε] [DecidableEq α] : DecidableEq (Except ε α)
  | Except.ok a, Except.ok b =>
      decidable_of_iff (a = b) ⟨fun h => h ▸ rfl, fun h => by cases h; rfl⟩
  | Except.ok _, Except.error _ => Decidable.isFalse fun h => Except.noConfusion h
  | Except.error _, Except.ok _ => Decidable.isFalse fun h => Except.noConfusion h
  | Except.error e, Except.error f =>
      decidable_of_iff (e = f) ⟨fun h => h ▸ rfl, fun h => by cases h; rfl⟩

/-- The result of one run of `tunnel`: its event trace, its
`std::io::Result<()>` value, and whether each stream is closed when the run
ends. Rust drops both `upgraded` and `server` whenever `tunnel` returns, so
a stream that was opened is closed on every path; `serverOpened` records
whether the outbound stream ever existed. -/
structure TunnelRun where
  events : List Event
  result : Except String Unit
  upgradedClosedAtEnd : Bool
  serverOpened : Bool
  serverClosedAtEnd : Bool
deriving DecidableEq, Repr

/-- The `tunnel` function from the source:
`TcpStream::connect(addr).await?`, then
`copy_bidirectional(&mut upgraded, &mut server).await?`, then
`tracing::debug!("client wrote {} bytes and received {} bytes", ..)`.
Each `?` returns the error immediately, skipping the debug log. -/
def tunnel (addr : String) (d : DialOutcome) (r : RelayOutcome) : TunnelRun :=
  match d with
  | DialOutcome.err e =>
      { events := [Event.dialAttempt addr]
      , result := Except.error e
      , upgradedClosedAtEnd := true
      , serverOpened := false
      , serverClosedAtEnd := true }
  | DialOutcome.ok =>
      match r with
      | RelayOutcome.err e _pc _ps =>
          { events := [Event.dialAttempt addr, Event.relayRun]
          , result := Except.error e
          , upgradedClosedAtEnd := true
          , serverOpened := true
          , serverClosedAtEnd := true }
      | RelayOutcome.ok fromClient fromServer =>
          { events := [Event.dialAttempt addr, Event.relayRun,
                       Event.debugCounts fromClient fromServer]
          , result := Except.ok ()
          , upgradedClosedAtEnd := true
          , serverOpened := true
          , serverClosedAtEnd := true }

/-- The body of the task spawned by `proxy`: await the upgrade; on success
run `tunnel` and log `"server io error: {e}"` if it fails; on upgrade
failure log `"upgrade error: {e}"`. -/
def backgroundTask (addr : String) (up : UpgradeOutcome) (d : DialOutcome)
    (r : RelayOutcome) : List Event :=
  match up with
  | UpgradeOutcome.err e => [Event.upgradeResolved false, Event.warnLog ("upgrade error: " ++ e)]
  | UpgradeOutcome.ok =>
      let t := tunnel addr d r
      Event.upgradeResolved true ::
        (t.events ++
          match t.result with
          | Except.error e => [Event.warnLog ("server io error: " ++ e)]
          | Except.ok _ => [])

/-- The full event trace of one CONNECT exchange handled by `proxy`.
hyper guarantees that the future returned by `hyper::upgrade::on` resolves
only after the HTTP response has been written back to the client, so even
though `tokio::task::spawn` runs before `Ok(response)` is returned, every
event of the spawned task (which begins by awaiting the upgrade) is
serialized after the `sendResponse` event. When the authority is absent no
task is spawned and the 400 response is the whole exchange. -/
def connectExchangeTrace (auth : Option String) (up : UpgradeOutcome)
    (d : DialOutcome) (r : RelayOutcome) : List Event :=
  match auth with
  | none => [Event.sendResponse 400]
  | some a => Event.sendResponse 200 :: backgroundTask a up d r

/-- Number of dial attempts in a trace. -/
def countDial (tr : List Event) : Nat :=
  tr.countP fun e =>
    match e with
    | Event.dialAttempt _ => true
    | _ => false

/-- The byte counts reported in a trace, if any: the arguments of the first
`debugCounts` event. -/
def reportedCounts : List Event → Option (Nat × Nat)
  | [] => none
  | Event.debugCounts c s :: _ => some (c, s)
  | _ :: rest => reportedCounts rest

/-- The `FromStr` parser for `u16` as `str::parse::<u16>()` uses it: an
optional leading `+` sign, then one or more ASCII digits, value at most
`u16::MAX`; anything else (empty string, other characters, overflow) fails. -/
def parseU16 (s : String) : Option Nat :=
  let digits :=
    match s.data with
    | '+' :: rest => rest
    | other => other
  if digits.isEmpty then none
  else if digits.all Char.isDigit then
    let v := digits.foldl (fun acc c => acc * 10 + (c.toNat - 48)) 0
    if v < 65536 then some v else none
  else none

/-- The port computation in `main`:
`env_port.unwrap_or_else(|_| "3000".into()).parse().unwrap()`. The input is
the value of the `PORT` environment variable (`none` when `env::var`
failed, i.e. the variable is absent). `none` in the result is the `unwrap`
panic: the process aborts before binding the listener. -/
def resolvePort (envPort : Option String) : Option Nat :=
  parseU16 (envPort.getD "3000")

/-- Whether `main` reaches the bind-and-serve step for a given `PORT`
value: it does exactly when the port computation did not panic. -/
def startupServes (envPort : Option String) : Bool :=
  (resolvePort envPort).isSome

/-- An operation against the external route store (the sqlx queries). -/
inductive DbOp where
  | put (route dest : String)
  | get (route : String)
deriving DecidableEq, Repr

/-- How a Rust future value is used by its creator. -/
inductive FutureUse where
  | awaited
  | dropped
deriving DecidableEq, Repr

/-- Rust future semantics: a future is lazy — its body runs only when the
future is awaited (polled); a future that is dropped without being awaited
performs none of its effects. -/
def runFuture (effects : List DbOp) : FutureUse → List DbOp
  | FutureUse.awaited => effects
  | FutureUse.dropped => []

/-- The effects the body of `add_route(conn, route)` performs when polled:
one INSERT of `(route, "teste_teste")` into `routes`. -/
def add_route_effects (route : String) : List DbOp :=
  [DbOp.put route "teste_teste"]

/-- The effects the body of `get_route(conn, route)` performs when polled:
one SELECT of `redirect_to` from `routes`. -/
def get_route_effects (route : String) : List DbOp :=
  [DbOp.get route]

/-- The route-store operations executed during startup. `main` runs
`let _ = add_route(&pool, "/");` — the future returned by `add_route` is
bound to `_` and dropped without ever being awaited, so its INSERT never
runs. -/
def mainStartupDbOps : List DbOp :=
  runFuture (add_route_effects "/") FutureUse.dropped

/-- The route-store operations executed while handling one request: neither
branch of the dispatcher (`proxy` or the axum router) calls `get_route` or
`add_route`, so request handling performs no database operation. -/
def serviceDbOps (_req : Request) : List DbOp := []

/-! ## Theorems for the claims -/

/-- Claim C1, counterexample: the authority string "localhost" is malformed
(missing the port), yet `proxy` returns the 200 empty-body success response
and spawns the background task, and the exchange attempts a dial — not the
400-class rejection with no background work that the claim requires. -/
theorem connect_malformed_authority_not_rejected :
    wellFormedHostPort "localhost" = false ∧
    (proxy { method := Method.CONNECT
           , uri := { path := "localhost", authority := some "localhost" } }).1 =
      Except.ok emptySuccessResponse ∧
    emptySuccessResponse.status = 200 ∧
    (proxy { method := Method.CONNECT
           , uri := { path := "localhost", authority := some "localhost" } }).2 =
      some "localhost" ∧
    countDial (connectExchangeTrace (some "localhost") UpgradeOutcome.ok
      DialOutcome.ok (RelayOutcome.ok 0 0)) = 1 := by
  refine ⟨by decide, rfl, rfl, rfl, by decide⟩

/-- Claim C1, amended: for every CONNECT request whose target authority is
absent, `proxy` synchronously returns the 400 response with the
human-readable reason "CONNECT must be to a socket address", spawns no
background task, and the exchange attempts no dial. Present but malformed
authorities are not rejected. -/
theorem connect_absent_authority_rejected (req : Request)
    (h : req.uri.authority = none) :
    (proxy req).1 =
      Except.ok (intoResponseStatusStr 400 "CONNECT must be to a socket address") ∧
    (intoResponseStatusStr 400 "CONNECT must be to a socket address").status = 400 ∧
    (proxy req).2 = none ∧
    ∀ up d r, countDial (connectExchangeTrace req.uri.authority up d r) = 0 := by
  cases req with
  | mk m u =>
    cases u with
    | mk p a =>
      cases h
      exact ⟨rfl, rfl, rfl, fun up d r => rfl⟩

/-- Witness for the amended claim C1 at a concrete CONNECT request with no
authority. -/
theorem connect_absent_authority_rejected_witness :
    (proxy { method := Method.CONNECT
           , uri := { path := "example.com", authority := none } }).1 =
      Except.ok (intoResponseStatusStr 400 "CONNECT must be to a socket address") ∧
    countDial (connectExchangeTrace none UpgradeOutcome.ok DialOutcome.ok
      (RelayOutcome.ok 0 0)) = 0 := by
  have h := connect_absent_authority_rejected
    { method := Method.CONNECT
    , uri := { path := "example.com", authority := none } } rfl
  exact ⟨h.1, h.2.2.2 UpgradeOutcome.ok DialOutcome.ok (RelayOutcome.ok 0 0)⟩

/-- Claim C2: for every CONNECT request whose authority is a well-formed
host:port, `proxy` immediately returns the 200 success response with an
empty body and hands the upgrade/dial/tunnel work to the spawned
background task; the head of every possible exchange trace is the 200
response, independently of the upgrade, dial and relay outcomes, so the
response-returning path never awaits the task. -/
theorem connect_wellformed_success (req : Request) (a : String)
    (ha : req.uri.authority = some a) (hw : wellFormedHostPort a = true) :
    (proxy req).1 = Except.ok emptySuccessResponse ∧
    emptySuccessResponse.status = 200 ∧
    emptySuccessResponse.body = "" ∧
    (proxy req).2 = some a ∧
    ∀ up d r, (connectExchangeTrace (some a) up d r).head? =
      some (Event.sendResponse 200) := by
  cases req with
  | mk m u =>
    cases u with
    | mk p auth =>
      cases ha
      exact ⟨rfl, rfl, rfl, rfl, fun up d r => rfl⟩

/-- Witness for claim C2 at the concrete well-formed authority
"example.com:443". -/
theorem connect_wellformed_success_witness :
    wellFormedHostPort "example.com:443" = true ∧
    (proxy { method := Method.CONNECT
           , uri := { path := "example.com:443"
                    , authority := some "example.com:443" } }).1 =
      Except.ok emptySuccessResponse := by
  refine ⟨by decide, ?_⟩
  exact (connect_wellformed_success _ "example.com:443" rfl (by decide)).1

/-- Claim C3, counterexample: a relay that fails with "connection reset by
peer" after 5 bytes client-to-server and 7 bytes server-to-client
terminates the tunnel with that error and closes both streams, but neither
the trace of the tunnel nor the trace of the whole background task reports
any byte count: the early return of `?` skips the debug log and the
`io::Error` value carries no counts. -/
theorem tunnel_relay_error_counts_lost :
    (tunnel "10.0.0.1:80" DialOutcome.ok
      (RelayOutcome.err "connection reset by peer" 5 7)).result =
      Except.error "connection reset by peer" ∧
    reportedCounts (tunnel "10.0.0.1:80" DialOutcome.ok
      (RelayOutcome.err "connection reset by peer" 5 7)).events = none ∧
    reportedCounts (backgroundTask "10.0.0.1:80" UpgradeOutcome.ok
      DialOutcome.ok (RelayOutcome.err "connection reset by peer" 5 7)) = none :=
  ⟨rfl, rfl, rfl⟩

/-- Claim C3, amended: an I/O error during the byte relay terminates the
whole tunnel with that error, both streams are closed, and the error is
logged as a warning by the background task — but the byte counts
accumulated before the error are not reported; byte counts are reported
only when the relay completes successfully. -/
theorem tunnel_relay_error_behavior (addr e : String) (pc ps : Nat) :
    (tunnel addr DialOutcome.ok (RelayOutcome.err e pc ps)).result =
      Except.error e ∧
    (tunnel addr DialOutcome.ok (RelayOutcome.err e pc ps)).upgradedClosedAtEnd = true ∧
    (tunnel addr DialOutcome.ok (RelayOutcome.err e pc ps)).serverClosedAtEnd = true ∧
    reportedCounts (tunnel addr DialOutcome.ok (RelayOutcome.err e pc ps)).events = none ∧
    backgroundTask addr UpgradeOutcome.ok DialOutcome.ok (RelayOutcome.err e pc ps) =
      [Event.upgradeResolved true, Event.dialAttempt addr, Event.relayRun,
       Event.warnLog ("server io error: " ++ e)] ∧
    ∀ c s, reportedCounts (tunnel addr DialOutcome.ok (RelayOutcome.ok c s)).events =
      some (c, s) :=
  ⟨rfl, rfl, rfl, rfl, rfl, fun c s => rfl⟩

/-- Claim C4, code evaluation: the `redirect` handler builds a 308 response
with a Location header but discards it (the function body ends in a
semicolon and returns `()`), so the router answers GET / with an empty 200
response carrying no Location header. -/
theorem get_root_returns_empty_200 :
    routerSvc { method := Method.GET, uri := { path := "/", authority := none } } =
      { status := 200, headers := [], body := "" } ∧
    redirectBuiltAndDiscarded.1.status = 308 ∧
    redirectBuiltAndDiscarded.1.headers = [("Location", "https://bento.me/devjunio")] ∧
    intoResponseUnit redirect = { status := 200, headers := [], body := "" } :=
  ⟨rfl, rfl, rfl, rfl⟩

/-- Claim C5: the dispatcher routes by method — a CONNECT request gets the
return value of `proxy` as the response of the exchange, and any other
request is forwarded unmodified to the router whose response is returned
verbatim inside `Ok`; the router branch cannot fail, so no failure of the
non-tunnel handler can reach the listener loop. -/
theorem dispatcher_routes_by_method (req : Request) :
    (req.method = Method.CONNECT → service req = (proxy req).1) ∧
    (req.method ≠ Method.CONNECT →
      service req = Except.ok (routerSvc req) ∧ (service req).isOk = true) := by
  constructor
  · intro h
    simp [service, h]
  · intro h
    simp [service, h, routerOneshot, Except.isOk, Except.toBool]

/-- Witness for claim C5: a CONNECT request and a GET request dispatched at
concrete inputs. -/
theorem dispatcher_routes_by_method_witness :
    service { method := Method.GET, uri := { path := "/ping", authority := none } } =
      Except.ok (routerSvc { method := Method.GET
                           , uri := { path := "/ping", authority := none } }) ∧
    service { method := Method.CONNECT
            , uri := { path := "example.com:443"
                     , authority := some "example.com:443" } } =
      (proxy { method := Method.CONNECT
             , uri := { path := "example.com:443"
                      , authority := some "example.com:443" } }).1 := by
  exact ⟨((dispatcher_routes_by_method _).2 (by decide)).1,
         (dispatcher_routes_by_method _).1 rfl⟩

/-- Claim C6: in every CONNECT exchange the first event of the trace is the
HTTP response (200 or 400), no dial occupies the first position, at most
one dial is attempted in the whole exchange (never retried), and every run
of `tunnel` attempts its dial exactly once. -/
theorem connect_response_precedes_dial (auth : Option String)
    (up : UpgradeOutcome) (d : DialOutcome) (r : RelayOutcome) :
    ((connectExchangeTrace auth up d r).head? = some (Event.sendResponse 200) ∨
     (connectExchangeTrace auth up d r).head? = some (Event.sendResponse 400)) ∧
    countDial ((connectExchangeTrace auth up d r).take 1) = 0 ∧
    countDial (connectExchangeTrace auth up d r) ≤ 1 ∧
    ∀ a, countDial (tunnel a d r).events = 1 := by
  cases auth <;> cases up <;> cases d <;> cases r <;>
    simp [connectExchangeTrace, backgroundTask, tunnel, countDial,
      List.countP_cons, List.countP_nil]

/-- Claim C7: the listening port defaults to 3000 when PORT is absent; when
PORT is present but not a valid u16, the parse fails and the process panics
before binding, so it does not serve; when PORT parses, that value is the
port. -/
theorem port_from_env :
    resolvePort none = some 3000 ∧
    (∀ s, parseU16 s = none →
      resolvePort (some s) = none ∧ startupServes (some s) = false) ∧
    (∀ s v, parseU16 s = some v → resolvePort (some s) = some v) := by
  refine ⟨by decide, ?_, ?_⟩
  · intro s h
    refine ⟨h, ?_⟩
    simp [startupServes, resolvePort, Option.getD] at *
    simp [h]
  · intro s v h
    exact h

/-- Witness for claim C7: an overflowing port value fails startup, a valid
port value is used. -/
theorem port_from_env_witness :
    resolvePort (some "70000") = none ∧
    startupServes (some "70000") = false ∧
    resolvePort (some "8080") = some 8080 := by
  have h1 := port_from_env.2.1 "70000" (by decide)
  have h2 := port_from_env.2.2 "8080" 8080 (by decide)
  exact ⟨h1.1, h1.2, h2⟩

/-- Claim C8, code evaluation: `main` drops the future returned by
`add_route` without awaiting it, so startup executes no route-store
operation at all — the put of route "/" that awaiting the future would
have performed never runs; and request handling performs no route-store
operation, in particular no `get`. -/
theorem startup_route_registration_never_runs :
    mainStartupDbOps = [] ∧
    runFuture (add_route_effects "/") FutureUse.awaited =
      [DbOp.put "/" "teste_teste"] ∧
    (∀ req, serviceDbOps req = []) ∧
    (∀ req, (serviceDbOps req).countP (fun op =>
      match op with
      | DbOp.get _ => true
      | _ => false) = 0) :=
  ⟨rfl, rfl, fun _ => rfl, fun _ => rfl⟩

/-- Claim C9: a GET request to /ping is answered by the router with status
200 and body "Pong", and the dispatcher returns that response verbatim. -/
theorem get_ping_pong :
    routerSvc { method := Method.GET, uri := { path := "/ping", authority := none } } =
      intoResponseStr "Pong" ∧
    (intoResponseStr "Pong").status = 200 ∧
    (intoResponseStr "Pong").body = "Pong" ∧
    service { method := Method.GET, uri := { path := "/ping", authority := none } } =
      Except.ok (intoResponseStr "Pong") :=
  ⟨rfl, rfl, rfl, rfl⟩

/-- Claim C10: `proxy` is total over its `http::Result` type — for every
inbound request it returns `Ok`, either the empty 200 success response or
the 400 rejection; its error branch is unreachable. -/
theorem proxy_never_errors (req : Request) :
    (proxy req).1.isOk = true ∧
    ((proxy req).1 = Except.ok emptySuccessResponse ∨
     (proxy req).1 =
       Except.ok (intoResponseStatusStr 400 "CONNECT must be to a socket address")) := by
  cases req with
  | mk m u =>
    cases u with
    | mk p a =>
      cases a with
      | none => exact ⟨rfl, Or.inr rfl⟩
      | some v => exact ⟨rfl, Or.inl rfl⟩

end Roads
